import Mathlib

/-!
Verification of the Time Truth & Compliance Engine of the workforce-mobile
repository: the durable offline action queue (`src/services/OfflineQueueService.web.ts`,
`src/services/OfflineQueueService.native.ts`), the compliance session state machine
(`src/store/complianceStore.ts`) and the time-truth capturer
(`src/services/TimeTruthService` — native variant).

Modelling conventions used throughout:
* ISO-8601 timestamp strings are modelled as integer milliseconds since the epoch
  (the value of `new Date(s).getTime()`); this is order- and difference-preserving.
* JavaScript numbers holding monotonic timestamps (possibly fractional, e.g.
  `uptimeSeconds * 1000` or `performance.now()`) are modelled as rationals `ℚ`.
* Asynchronous fallible collaborators (storage reads/writes, time capture) are
  modelled by passing their outcome as an explicit `Except Unit` argument; a
  `try`/`catch` in the source becomes a `match` on that outcome.
* `console.log` / `console.warn` / `console.error` calls have no effect on the
  data flow and are not modelled.
-/

-- ============================================================================
-- Durable offline action queue
-- ============================================================================

/-- A queued offline action, as persisted by `OfflineQueueService`
(field list of `QueuedAction` in the repository's types module).
`payload` is kept as its serialized form, a string. -/
structure QueuedAction where
  id : String
  type : String
  payload : String
  priority : Int
  attempts : Int
  maxAttempts : Int
  lastAttempt : Option Int
  createdAt : Int
deriving DecidableEq, Repr

/-- The ordering used by `getQueue`: priority descending, then creation time
ascending.  On web this is the comparator
`(a, b) => a.priority !== b.priority ? b.priority - a.priority :
new Date(a.createdAt).getTime() - new Date(b.createdAt).getTime()`
(OfflineQueueService.web.ts:223-228); on native it is
`ORDER BY priority DESC, created_at ASC` (OfflineQueueService.native.ts:327-329). -/
def queueOrder (a b : QueuedAction) : Prop :=
  b.priority < a.priority ∨ (a.priority = b.priority ∧ a.createdAt ≤ b.createdAt)

instance : DecidableRel queueOrder := fun _ _ =>
  inferInstanceAs (Decidable (_ ∨ _))

instance : IsTotal QueuedAction queueOrder := by
  constructor
  intro a b
  unfold queueOrder
  omega

instance : IsTrans QueuedAction queueOrder := by
  constructor
  intro a b c hab hbc
  unfold queueOrder at hab hbc ⊢
  omega

/-- The sort performed by `getQueue` on both backends: a stable sort by
`queueOrder`.  `Array.prototype.sort` with a consistent comparator produces the
(unique) stable ordering, here modelled by insertion sort, which is stable. -/
def sortQueue (q : List QueuedAction) : List QueuedAction :=
  List.insertionSort queueOrder q

namespace OfflineQueueService

/-- `OfflineQueueService.enqueue` (web, OfflineQueueService.web.ts:85-114):
appends a fresh record with zero attempts to the stored queue and returns it.
`freshId` models `uuidv4()` and `now` models `new Date().toISOString()`.
`action.maxAttempts || 5` uses JS truthiness, so an absent or zero
`maxAttempts` both become 5. -/
def enqueue (queue : List QueuedAction) (atype : String) (payload : String)
    (priority : Int) (maxAttempts : Option Int) (freshId : String) (now : Int) :
    List QueuedAction × QueuedAction :=
  let queuedAction : QueuedAction :=
    { id := freshId
      type := atype
      payload := payload
      priority := priority
      attempts := 0
      maxAttempts := match maxAttempts with
        | none => 5
        | some m => if m = 0 then 5 else m
      lastAttempt := none
      createdAt := now }
  (queue ++ [queuedAction], queuedAction)

/-- `OfflineQueueService.getQueue` (web, OfflineQueueService.web.ts:218-239).
`read` is the outcome of the storage read inside `loadQueue()`
(`AsyncStorage.getItem` plus `JSON.parse`); a failed read is caught and
treated as an empty queue.  The records are then sorted by `queueOrder`.
`if (limit)` treats a zero limit as falsy, i.e. as no limit. -/
def getQueue (read : Except Unit (List QueuedAction)) (limit : Option Nat) :
    List QueuedAction :=
  match read with
  | .error _ => []
  | .ok queue =>
    let sorted := sortQueue queue
    match limit with
    | none => sorted
    | some n => if n = 0 then sorted else sorted.take n

/-- `OfflineQueueService.getQueue` (native, OfflineQueueService.native.ts:322-350):
`SELECT * FROM offline_queue ORDER BY priority DESC, created_at ASC` with an
optional `LIMIT`; a database failure is caught and yields `[]`.  The template
literal inserts the `LIMIT` clause only when `limit` is truthy, so a zero limit
again means no limit. -/
def getQueueNative (read : Except Unit (List QueuedAction)) (limit : Option Nat) :
    List QueuedAction :=
  match read with
  | .error _ => []
  | .ok rows =>
    let sorted := sortQueue rows
    match limit with
    | none => sorted
    | some n => if n = 0 then sorted else sorted.take n

/-- `OfflineQueueService.removeFailedActions` (web, OfflineQueueService.web.ts:314-333).
`read` models the storage read inside `loadQueue()` (caught to `[]` on failure);
`writeOk` models whether `AsyncStorage.setItem` inside `saveQueue` succeeds.
Returns the reported purge count and the new stored queue (`none` when the
write threw, in which case the outer catch reports a count of 0 and storage is
left unchanged). -/
def removeFailedActions (read : Except Unit (List QueuedAction)) (writeOk : Bool) :
    Nat × Option (List QueuedAction) :=
  let queue := match read with
    | .error _ => []
    | .ok q => q
  let failedActions := queue.filter (fun a => decide (a.attempts ≥ a.maxAttempts))
  let remainingQueue := queue.filter (fun a => decide (a.attempts < a.maxAttempts))
  if writeOk then (failedActions.length, some remainingQueue)
  else (0, none)

/-- `OfflineQueueService.removeFailedActions` (native, OfflineQueueService.native.ts:437-456):
`DELETE FROM offline_queue WHERE attempts >= max_attempts`, returning
`result.changes`; a database failure is caught and reported as a count of 0
with the table unchanged. -/
def removeFailedActionsNative (db : Except Unit (List QueuedAction)) :
    Nat × Except Unit (List QueuedAction) :=
  match db with
  | .error e => (0, .error e)
  | .ok rows =>
    ((rows.filter (fun a => decide (a.attempts ≥ a.maxAttempts))).length,
     .ok (rows.filter (fun a => decide (a.attempts < a.maxAttempts))))

end OfflineQueueService

/-- The claim C8 example: a priority-1 action enqueued at T0 = 0. -/
def c8LowEnqueue : List QueuedAction × QueuedAction :=
  OfflineQueueService.enqueue [] "TASK_COMPLETION" "task-payload" 1 none "id-low" 0

/-- The claim C8 example: a priority-10 action enqueued at T1 = 1, after the
priority-1 action. -/
def c8HighEnqueue : List QueuedAction × QueuedAction :=
  OfflineQueueService.enqueue c8LowEnqueue.1 "TIME_ENTRY" "entry-payload" 10 none "id-high" 1

-- ============================================================================
-- Compliance session state machine (src/store/complianceStore.ts)
-- ============================================================================

/-- Application mode (`AppMode` in the repository's types module). -/
inductive AppMode where
  | PASSIVE
  | ACTIVE
deriving DecidableEq, Repr

/-- The fields of `RemoteTask` read by the compliance store: `id` (stored as
`remoteTaskId` on the created entry) and `payRate` in cents per minute. -/
structure RemoteTask where
  id : String
  payRate : ℚ
deriving DecidableEq, Repr

/-- The time event kinds of `TimeTruthService` (`TimeEventType`). -/
inductive TimeEventType where
  | CLOCK_IN
  | CLOCK_OUT
  | FORCE_CLOCK_OUT
  | BREAK_START
  | BREAK_END
deriving DecidableEq, Repr

/-- The result of `TimeTruthService.captureTimeEvent` as consumed by the store
(the `deviceModel` / `osVersion` / `appVersion` fields are never read by the
store and are omitted).  `wallClockTime` is the ISO string as milliseconds;
`monotonicTime` is a (possibly fractional) millisecond count since boot. -/
structure TimeEvent where
  eventType : TimeEventType
  wallClockTime : Int
  monotonicTime : ℚ
  deviceBootTime : Int
  deviceId : String
deriving DecidableEq, Repr

/-- `TimeEntry` (repository types module): a work session with
compliance-verified timestamps.  ISO strings are modelled as integer
milliseconds, monotonic values as rationals. -/
structure TimeEntry where
  id : String
  userId : String
  startTime : Int
  endTime : Option Int
  type : String
  monotonicStart : ℚ
  monotonicEnd : Option ℚ
  deviceBootTime : Int
  deviceId : String
  isSynced : Bool
  syncAttempts : Int
  lastSyncAttempt : Option Int
  remoteTaskId : Option String
  createdAt : Int
  updatedAt : Int
deriving DecidableEq, Repr

/-- The state owned by the compliance store (complianceStore.ts:20-51). -/
structure ComplianceState where
  appMode : AppMode
  currentSessionEarnings : Int
  activeTask : Option RemoteTask
  currentTimeEntry : Option TimeEntry
  isPaused : Bool
  pausedAt : Option Int
  totalPauseDuration : ℚ
  sessionStartTime : Option Int
  monotonicSessionStart : Option ℚ
deriving DecidableEq, Repr

namespace ComplianceStore

/-- The store's initial state (complianceStore.ts:137-145). -/
def initialState : ComplianceState :=
  { appMode := .PASSIVE
    currentSessionEarnings := 0
    activeTask := none
    currentTimeEntry := none
    isPaused := false
    pausedAt := none
    totalPauseDuration := 0
    sessionStartTime := none
    monotonicSessionStart := none }

/-- `reset` (complianceStore.ts:348-363): sets every field back to its initial
value; since the state consists of exactly those nine fields, the result is
`initialState`. -/
def reset (_s : ComplianceState) : ComplianceState := initialState

/-- `startTunnel` (complianceStore.ts:151-211).  `capture` is the outcome of
`TimeTruthService.captureTimeEvent('CLOCK_IN')` and `queueResult` the outcome
of `TimeTruthService.queueTimeEntry` (the durable enqueue at priority 10);
`freshId` models `uuidv4()` and `now` models `new Date().toISOString()`.
Returns the new store state and the created entry; `none` models the `null`
returned on refusal, and a thrown capture/enqueue error is caught and also
returns `null` without touching the state. -/
def startTunnel (s : ComplianceState) (task : RemoteTask) (userId : String)
    (capture : Except Unit TimeEvent) (queueResult : Except Unit Unit)
    (freshId : String) (now : Int) : ComplianceState × Option TimeEntry :=
  if s.appMode = .ACTIVE ∨ s.currentTimeEntry.isSome then (s, none)
  else
    match capture with
    | .error _ => (s, none)
    | .ok timeEvent =>
      let timeEntry : TimeEntry :=
        { id := freshId
          userId := userId
          startTime := timeEvent.wallClockTime
          endTime := none
          type := "REMOTE_TASK"
          monotonicStart := timeEvent.monotonicTime
          monotonicEnd := none
          deviceBootTime := timeEvent.deviceBootTime
          deviceId := timeEvent.deviceId
          isSynced := false
          syncAttempts := 0
          lastSyncAttempt := none
          remoteTaskId := some task.id
          createdAt := now
          updatedAt := now }
      match queueResult with
      | .error _ => (s, none)
      | .ok _ =>
        ({ s with
            appMode := .ACTIVE
            activeTask := some task
            currentTimeEntry := some timeEntry
            currentSessionEarnings := 0
            sessionStartTime := some timeEvent.wallClockTime
            monotonicSessionStart := some timeEvent.monotonicTime
            isPaused := false
            pausedAt := none
            totalPauseDuration := 0 }, some timeEntry)

/-- `endTunnel` (complianceStore.ts:213-265).  `capture` is the outcome of
`captureTimeEvent('CLOCK_OUT')` and `updateResult` that of
`TimeTruthService.updateTimeEntry`; `now` models `new Date().toISOString()`.
The source reads `state.monotonicSessionStart!` without a runtime check; a
`null` value coerces to 0 in the JS subtraction, modelled by `getD 0`. -/
def endTunnel (s : ComplianceState) (capture : Except Unit TimeEvent)
    (updateResult : Except Unit Unit) (now : Int) :
    ComplianceState × Option TimeEntry :=
  match s.currentTimeEntry, s.activeTask with
  | some currentEntry, some activeTask =>
    if s.appMode ≠ .ACTIVE then (s, none)
    else
      match capture with
      | .error _ => (s, none)
      | .ok timeEvent =>
        let elapsedMs : ℚ := timeEvent.monotonicTime - s.monotonicSessionStart.getD 0
        let elapsedMinutes : ℚ := (elapsedMs - s.totalPauseDuration) / 60000
        let earnings : Int := ⌊elapsedMinutes * activeTask.payRate⌋
        let completedEntry : TimeEntry :=
          { currentEntry with
              endTime := some timeEvent.wallClockTime
              monotonicEnd := some timeEvent.monotonicTime
              updatedAt := now }
        match updateResult with
        | .error _ => (s, none)
        | .ok _ =>
          ({ s with
              appMode := .PASSIVE
              activeTask := none
              currentTimeEntry := none
              currentSessionEarnings := earnings
              isPaused := false
              pausedAt := none
              totalPauseDuration := 0
              sessionStartTime := none
              monotonicSessionStart := none }, some completedEntry)
  | _, _ => (s, none)

/-- `pauseSession` (complianceStore.ts:267-280): no-op unless ACTIVE and not
already paused; records the pause wall-clock time (`now` models
`new Date().toISOString()`). -/
def pauseSession (s : ComplianceState) (now : Int) : ComplianceState :=
  if s.appMode ≠ .ACTIVE ∨ s.isPaused then s
  else { s with isPaused := true, pausedAt := some now }

/-- `resumeSession` (complianceStore.ts:282-302): no-op unless ACTIVE, paused,
and with a recorded `pausedAt`; adds the wall-clock pause duration to the
accumulator (`now` models `Date.now()`). -/
def resumeSession (s : ComplianceState) (now : Int) : ComplianceState :=
  match s.pausedAt with
  | none => s
  | some pausedAt =>
    if s.appMode ≠ .ACTIVE ∨ ¬ s.isPaused then s
    else
      let pauseDuration : ℚ := (now : ℚ) - (pausedAt : ℚ)
      { s with
          isPaused := false
          pausedAt := none
          totalPauseDuration := s.totalPauseDuration + pauseDuration }

/-- `updateEarnings` (complianceStore.ts:304-321), the periodic earnings
recomputation while ACTIVE/running.  Load-bearing for claim C1: the elapsed
time is `Date.now() − new Date(state.sessionStartTime!).getTime() −
state.totalPauseDuration`, a WALL-CLOCK delta (`nowWall` models `Date.now()`).
The guard `!state.monotonicSessionStart` uses JS truthiness, so a stored 0 is
treated like `null`; `state.sessionStartTime!` behaves as 0 when `null`. -/
def updateEarnings (s : ComplianceState) (nowWall : Int) : ComplianceState :=
  match s.activeTask with
  | none => s
  | some activeTask =>
    if s.appMode ≠ .ACTIVE ∨ s.monotonicSessionStart.getD 0 = 0 ∨ s.isPaused then s
    else
      let sessionStart : Int := s.sessionStartTime.getD 0
      let elapsedMs : ℚ := (nowWall : ℚ) - (sessionStart : ℚ) - s.totalPauseDuration
      let elapsedMinutes : ℚ := elapsedMs / 60000
      let earnings : Int := ⌊elapsedMinutes * activeTask.payRate⌋
      { s with currentSessionEarnings := earnings }

/-- `forceEndSession` (complianceStore.ts:323-346).  When a time entry is
present it best-effort captures FORCE_CLOCK_OUT and updates the queued entry
(`capture` and `updateResult` are those collaborators' outcomes; any failure
is caught and swallowed), then unconditionally calls `reset`.  The second
component is the entry handed to `updateTimeEntry` when that persisted, so
the best-effort persistence is observable in the model. -/
def forceEndSession (s : ComplianceState) (capture : Except Unit TimeEvent)
    (updateResult : Except Unit Unit) (now : Int) :
    ComplianceState × Option TimeEntry :=
  match s.currentTimeEntry with
  | some currentEntry =>
    match capture with
    | .ok timeEvent =>
      let completedEntry : TimeEntry :=
        { currentEntry with
            endTime := some timeEvent.wallClockTime
            monotonicEnd := some timeEvent.monotonicTime
            updatedAt := now }
      match updateResult with
      | .ok _ => (reset s, some completedEntry)
      | .error _ => (reset s, none)
    | .error _ => (reset s, none)
  | none => (reset s, none)

end ComplianceStore

/-- A concrete in-flight time entry used by the concrete store scenarios. -/
def cEntry : TimeEntry :=
  { id := "entry-1"
    userId := "user-1"
    startTime := 0
    endTime := none
    type := "REMOTE_TASK"
    monotonicStart := 1000
    monotonicEnd := none
    deviceBootTime := 0
    deviceId := "device-1"
    isSynced := false
    syncAttempts := 0
    lastSyncAttempt := none
    remoteTaskId := some "task-1"
    createdAt := 0
    updatedAt := 0 }

/-- A concrete remote task paying 25 cents per minute. -/
def cTask : RemoteTask := { id := "task-1", payRate := 25 }

/-- Claim C1 failing input: an ACTIVE/running session that started at wall
clock 0 and monotonic 1000, no pauses. -/
def c1State : ComplianceState :=
  { appMode := .ACTIVE
    currentSessionEarnings := 0
    activeTask := some cTask
    currentTimeEntry := some cEntry
    isPaused := false
    pausedAt := none
    totalPauseDuration := 0
    sessionStartTime := some 0
    monotonicSessionStart := some 1000 }

/-- Claim C2 concrete scenario: an ACTIVE session with `monotonicStart = 0`
and no accumulated pause. -/
def c2State : ComplianceState :=
  { appMode := .ACTIVE
    currentSessionEarnings := 0
    activeTask := some cTask
    currentTimeEntry := some { cEntry with monotonicStart := 0 }
    isPaused := false
    pausedAt := none
    totalPauseDuration := 0
    sessionStartTime := some 0
    monotonicSessionStart := some 0 }

/-- Claim C2 concrete clock-out event at monotonic 180000 (3 minutes). -/
def c2Event : TimeEvent :=
  { eventType := .CLOCK_OUT
    wallClockTime := 180000
    monotonicTime := 180000
    deviceBootTime := 0
    deviceId := "device-1" }

/-- A clock-out event at monotonic 178800 (2.98 minutes), where flooring and
rounding differ: 2.98 × 25 = 74.5 cents. -/
def c2EventJitter : TimeEvent :=
  { eventType := .CLOCK_OUT
    wallClockTime := 178800
    monotonicTime := 178800
    deviceBootTime := 0
    deviceId := "device-1" }

-- ============================================================================
-- Time truth capturer (native TimeTruthService)
-- ============================================================================

/-- The secret salt appended to the serialized payload before digesting. -/
def SECRET_SALT : String := "WORKFORCE_MOBILE_SECRET_SALT_PLACEHOLDER_2024"

/-- The payload of a `SignedTimeCapture`: wall-clock ms (`userTime`),
monotonic ms, event kind, device id, and the human-readable `timestamp`
string, which the source sets to `new Date(userTime).toISOString()` (here
kept as the millisecond value it renders). -/
structure CapturePayload where
  userTime : Int
  monotonicTime : ℚ
  eventType : TimeEventType
  deviceId : String
  timestamp : Int
deriving DecidableEq, Repr

/-- A signed time capture: payload plus hex signature. -/
structure SignedTimeCapture where
  payload : CapturePayload
  signature : String
deriving DecidableEq, Repr

/-- Rendering of a rational millisecond value inside the JSON serialization.
The proofs rely only on this being a deterministic function. -/
def ratStr (q : ℚ) : String := toString q.num ++ "/" ++ toString q.den

/-- Rendering of `new Date(ms).toISOString()`.  The proofs rely only on this
being a deterministic function of the millisecond value. -/
def isoStr (n : Int) : String := toString n ++ "Z"

/-- The JSON string literal for each event kind. -/
def eventTypeStr : TimeEventType → String
  | .CLOCK_IN => "CLOCK_IN"
  | .CLOCK_OUT => "CLOCK_OUT"
  | .FORCE_CLOCK_OUT => "FORCE_CLOCK_OUT"
  | .BREAK_START => "BREAK_START"
  | .BREAK_END => "BREAK_END"

/-- The serialized payload after the `userTime` value: the remaining four
fields in insertion order, exactly as `JSON.stringify` emits them. -/
def jsonPayloadRest (p : CapturePayload) : String :=
  ",\"monotonicTime\":" ++ ratStr p.monotonicTime ++
  ",\"eventType\":\"" ++ eventTypeStr p.eventType ++
  "\",\"deviceId\":\"" ++ p.deviceId ++
  "\",\"timestamp\":\"" ++ isoStr p.timestamp ++ "\"\x7d"

/-- `JSON.stringify(payload)` as used inside `generateSignature`: the five
fields in insertion order (`userTime`, `monotonicTime`, `eventType`,
`deviceId`, `timestamp`). -/
def jsonPayload (p : CapturePayload) : String :=
  "\x7b\"userTime\":" ++ toString p.userTime ++ jsonPayloadRest p

/-- `generateSignature` (native TimeTruthService): stringifies the payload,
appends the secret salt and digests the result.  The SHA-256 digest provided
by `expo-crypto` is an external collaborator, abstracted as `digest`. -/
def generateSignature (digest : String → String) (p : CapturePayload) : String :=
  digest (jsonPayload p ++ SECRET_SALT)

/-- `getMonotonicTime` (native TimeTruthService).  `uptime` is the outcome of
`DeviceInfo.getSystemUptime()` in seconds, multiplied by 1000 on success; on
failure the code falls back to `performance.now()` when that API exists
(`perfNow`), and throws only when it does not. -/
def getMonotonicTime (uptime : Except Unit ℚ) (perfNow : Option ℚ) :
    Except Unit ℚ :=
  match uptime with
  | .ok u => .ok (u * 1000)
  | .error _ =>
    match perfNow with
    | some p => .ok p
    | none => .error ()

/-- `TimeTruthService.captureCurrentTime` (native): captures `userTime`
(wall clock), the monotonic time and the device id, builds the payload with
`timestamp = new Date(userTime).toISOString()`, and signs it.  A monotonic
failure propagates (the catch rethrows); `getDeviceId` never throws. -/
def captureCurrentTime (digest : String → String) (eventType : TimeEventType)
    (userTime : Int) (uptime : Except Unit ℚ) (perfNow : Option ℚ)
    (deviceId : String) : Except Unit SignedTimeCapture :=
  match getMonotonicTime uptime perfNow with
  | .error e => .error e
  | .ok monotonicTime =>
    let payload : CapturePayload :=
      { userTime := userTime
        monotonicTime := monotonicTime
        eventType := eventType
        deviceId := deviceId
        timestamp := userTime }
    .ok { payload := payload, signature := generateSignature digest payload }

/-- `TimeTruthService.validateIntegrity` (native): recomputes the signature
from the stored payload and compares it with the stored signature. -/
def validateIntegrity (digest : String → String) (c : SignedTimeCapture) : Bool :=
  generateSignature digest c.payload == c.signature

/-- Mutation of the stored `payload.userTime` of a capture, leaving every
other field — including the separately stored `timestamp` string and the
signature — unchanged. -/
def tamperUserTime (c : SignedTimeCapture) (u : Int) : SignedTimeCapture :=
  { c with payload := { c.payload with userTime := u } }

/-- An issue reported by `validateTimeEntry`; the dynamic parts of the
source's message strings are elided. -/
inductive EntryIssue where
  | endBeforeStart
  | durationTooLong
  | timeVariance
deriving DecidableEq, Repr

/-- `TimeTruthService.validateTimeEntry` (native).  The
`monotonicStart === undefined || monotonicStart === null` check can never
fire for a well-typed entry (`monotonicStart` is a required number field) and
contributes no issue here.  The variance check divides by
`wallClockDuration`; IEEE semantics at a zero duration give `Infinity`
(flagged) for a nonzero numerator and `NaN` (not flagged) for a zero
numerator, which the `wallClockDuration = 0` branch reproduces. -/
def validateTimeEntry (e : TimeEntry) : Bool × List EntryIssue :=
  let issuesAfterWall : List EntryIssue :=
    match e.endTime with
    | none => []
    | some endTime =>
      let issuesStart : List EntryIssue :=
        if endTime < e.startTime then [.endBeforeStart] else []
      let durationHours : ℚ := ((endTime : ℚ) - (e.startTime : ℚ)) / (1000 * 60 * 60)
      if durationHours > 24 then issuesStart ++ [.durationTooLong] else issuesStart
  let issues : List EntryIssue :=
    match e.endTime, e.monotonicEnd with
    | some endTime, some monotonicEnd =>
      let wallClockDuration : ℚ := (endTime : ℚ) - (e.startTime : ℚ)
      let monotonicDuration : ℚ := monotonicEnd - e.monotonicStart
      let varianceFlag : Bool :=
        if wallClockDuration = 0 then decide (monotonicDuration ≠ 0)
        else decide (|wallClockDuration - monotonicDuration| / wallClockDuration > 1 / 20)
      if varianceFlag then issuesAfterWall ++ [.timeVariance] else issuesAfterWall
    | _, _ => issuesAfterWall
  (issues.isEmpty, issues)

/-- Claim C6 concrete payload: CLOCK_IN at wall 100 with uptime 5 s. -/
def c6Payload : CapturePayload :=
  { userTime := 100
    monotonicTime := 5 * 1000
    eventType := .CLOCK_IN
    deviceId := "dev-1"
    timestamp := 100 }

/-- Claim C6 concrete capture, signed with the identity digest. -/
def c6Capture : SignedTimeCapture :=
  { payload := c6Payload, signature := generateSignature id c6Payload }

/-- Claim C9 concrete entry: the spec's 48-hour example, spanning
2024-01-01T00:00:00Z (1704067200000 ms) to 2024-01-03T00:00:00Z
(1704240000000 ms), with consistent monotonic values. -/
def c9Entry : TimeEntry :=
  { cEntry with
      startTime := 1704067200000
      endTime := some 1704240000000
      monotonicStart := 0
      monotonicEnd := some 172800000 }

-- ============================================================================
-- Theorems: queue claims
-- ============================================================================

/-- Claim C8: for every queue contents, `getQueue` returns the records ordered
by priority descending and, among records of equal priority, by creation time
ascending (the `queueOrder` relation), as a permutation of the stored records;
the native backend returns the same ordering; and in particular, after
enqueueing a priority-1 action at T0 and a priority-10 action at T1, `getQueue`
returns the priority-10 record before the priority-1 record. -/
theorem getQueue_priority_order :
    (∀ q : List QueuedAction,
        List.Sorted queueOrder (OfflineQueueService.getQueue (.ok q) none) ∧
        List.Perm (OfflineQueueService.getQueue (.ok q) none) q ∧
        OfflineQueueService.getQueueNative (.ok q) none =
          OfflineQueueService.getQueue (.ok q) none) ∧
    OfflineQueueService.getQueue (.ok c8HighEnqueue.1) none =
      [c8HighEnqueue.2, c8LowEnqueue.2] := by
  constructor
  · intro q
    refine ⟨List.sorted_insertionSort queueOrder q, List.perm_insertionSort queueOrder q, rfl⟩
  · decide

/-- Claim C10: the queue's read and purge operations never propagate a storage
failure: on a failed storage read, `getQueue` returns `[]` (on both backends)
and `removeFailedActions` reports a purge count of 0, so at the public
interface a storage failure is indistinguishable from an empty queue. -/
theorem queue_storage_failure_swallowed :
    (∀ limit, OfflineQueueService.getQueue (.error ()) limit = []) ∧
    (∀ limit, OfflineQueueService.getQueueNative (.error ()) limit = []) ∧
    (∀ writeOk, (OfflineQueueService.removeFailedActions (.error ()) writeOk).1 = 0) ∧
    (OfflineQueueService.removeFailedActionsNative (.error ())).1 = 0 ∧
    (OfflineQueueService.removeFailedActionsNative (.error ())).2 = .error () ∧
    (∀ limit, OfflineQueueService.getQueue (.error ()) limit =
        OfflineQueueService.getQueue (.ok []) limit) ∧
    (∀ writeOk, (OfflineQueueService.removeFailedActions (.error ()) writeOk).1 =
        (OfflineQueueService.removeFailedActions (.ok []) writeOk).1) := by
  refine ⟨fun limit => rfl, fun limit => rfl, fun writeOk => ?_, rfl, rfl,
    fun limit => ?_, fun writeOk => ?_⟩
  · cases writeOk <;> rfl
  · cases limit with
    | none => rfl
    | some n =>
      simp only [OfflineQueueService.getQueue, sortQueue, List.insertionSort]
      split <;> simp
  · cases writeOk <;> rfl

-- ============================================================================
-- Theorems: compliance store claims
-- ============================================================================

/-- Claim C1 (refuted by the code): the periodic earnings recomputation
`updateEarnings` is NOT a function of the monotonic timestamps.  On the
failing input `c1State` (monotonic session start 1000, wall-clock session
start 0, pay rate 25 cents/minute) with the monotonic state held fixed, two
different wall-clock readings of `Date.now()` yield different stored earnings
(50 vs 25 cents), and the value 50 stored when the user has advanced the wall
clock to 120000 differs from the 25 cents that the monotonic-delta formula
yields for the 60000 monotonic milliseconds actually elapsed (monotonic now
61000 minus monotonic start 1000). -/
theorem updateEarnings_uses_wall_clock :
    (ComplianceStore.updateEarnings c1State 120000).currentSessionEarnings = 50 ∧
    (ComplianceStore.updateEarnings c1State 60000).currentSessionEarnings = 25 ∧
    (ComplianceStore.updateEarnings c1State 120000).currentSessionEarnings ≠
      (ComplianceStore.updateEarnings c1State 60000).currentSessionEarnings ∧
    ⌊((61000 : ℚ) - 1000 - 0) / 60000 * 25⌋ = 25 := by
  refine ⟨?_, ?_, ?_, ?_⟩ <;>
    norm_num [ComplianceStore.updateEarnings, c1State, cTask]

/-- Claim C2: ending a session from ACTIVE with a successful capture and
queue update computes `elapsedMs = monotonicEnd − monotonicStart −
totalPauseDurationMs` and stores `earningsCents =
⌊elapsedMs / 60000 · payRateCentsPerMinute⌋` (floor, never round), returning
the completed entry with `monotonicEnd` set. -/
theorem endTunnel_earnings_floor
    (s : ComplianceState) (entry : TimeEntry) (task : RemoteTask)
    (monotonicStart : ℚ) (timeEvent : TimeEvent) (now : Int)
    (hMode : s.appMode = .ACTIVE)
    (hEntry : s.currentTimeEntry = some entry)
    (hTask : s.activeTask = some task)
    (hMono : s.monotonicSessionStart = some monotonicStart) :
    ComplianceStore.endTunnel s (.ok timeEvent) (.ok ()) now =
      ({ s with
          appMode := .PASSIVE
          activeTask := none
          currentTimeEntry := none
          currentSessionEarnings :=
            ⌊(timeEvent.monotonicTime - monotonicStart - s.totalPauseDuration)
               / 60000 * task.payRate⌋
          isPaused := false
          pausedAt := none
          totalPauseDuration := 0
          sessionStartTime := none
          monotonicSessionStart := none },
       some { entry with
                endTime := some timeEvent.wallClockTime
                monotonicEnd := some timeEvent.monotonicTime
                updatedAt := now }) := by
  unfold ComplianceStore.endTunnel
  rw [hEntry, hTask, hMono]
  simp [hMode]

/-- Witness for claim C2, containing the spec's concrete example: with
`monotonicStart = 0`, `monotonicEnd = 180000`, `totalPauseDurationMs = 0` and
`payRateCentsPerMinute = 25`, ending the session yields exactly 75 cents; and
on the jitter input 178800 ms (74.5 fractional cents) the result is the floor
74, not the rounding 75. -/
theorem endTunnel_earnings_floor_witness :
    c2State.appMode = .ACTIVE ∧
    c2State.currentTimeEntry = some { cEntry with monotonicStart := 0 } ∧
    c2State.activeTask = some cTask ∧
    c2State.monotonicSessionStart = some 0 ∧
    (ComplianceStore.endTunnel c2State (.ok c2Event) (.ok ()) 5).1.currentSessionEarnings
      = 75 ∧
    (ComplianceStore.endTunnel c2State (.ok c2EventJitter) (.ok ()) 5).1.currentSessionEarnings
      = 74 := by
  refine ⟨rfl, rfl, rfl, rfl, ?_, ?_⟩
  · rw [endTunnel_earnings_floor c2State { cEntry with monotonicStart := 0 } cTask 0
      c2Event 5 rfl rfl rfl rfl]
    norm_num [c2State, c2Event, cTask]
  · rw [endTunnel_earnings_floor c2State { cEntry with monotonicStart := 0 } cTask 0
      c2EventJitter 5 rfl rfl rfl rfl]
    norm_num [c2State, c2EventJitter, cTask, Int.floor_eq_iff]

/-- Claim C3: `startTunnel` is atomic with respect to persistence: if the
CLOCK_IN capture fails, or the durable enqueue of the new entry fails, the
call returns the state unchanged with a `null` entry (no half-completed
transition); and whenever the call changed the state at all, the enqueue had
reported success, the new mode is ACTIVE and the created entry is returned. -/
theorem startTunnel_atomic (s : ComplianceState) (task : RemoteTask)
    (userId : String) (capture : Except Unit TimeEvent)
    (queueResult : Except Unit Unit) (freshId : String) (now : Int) :
    (capture = .error () →
      ComplianceStore.startTunnel s task userId capture queueResult freshId now
        = (s, none)) ∧
    (queueResult = .error () →
      ComplianceStore.startTunnel s task userId capture queueResult freshId now
        = (s, none)) ∧
    ((ComplianceStore.startTunnel s task userId capture queueResult freshId now).1 ≠ s →
      queueResult = .ok () ∧
      (ComplianceStore.startTunnel s task userId capture queueResult freshId now).1.appMode
        = .ACTIVE ∧
      (ComplianceStore.startTunnel s task userId capture queueResult freshId now).2.isSome) := by
  unfold ComplianceStore.startTunnel
  by_cases hguard : s.appMode = .ACTIVE ∨ s.currentTimeEntry.isSome <;>
    cases capture <;> cases queueResult <;> simp [hguard]

/-- Witness for claim C3: from the initial (PASSIVE) state, a failed capture
and a failed enqueue each leave the state untouched with a `null` result,
while the successful run transitions to ACTIVE with the entry returned. -/
theorem startTunnel_atomic_witness :
    ComplianceStore.startTunnel ComplianceStore.initialState cTask "user-1"
        (.error ()) (.ok ()) "fresh-1" 0 = (ComplianceStore.initialState, none) ∧
    ComplianceStore.startTunnel ComplianceStore.initialState cTask "user-1"
        (.ok c2Event) (.error ()) "fresh-1" 0 = (ComplianceStore.initialState, none) ∧
    ((Except.ok () : Except Unit Unit) = .ok () ∧
      (ComplianceStore.startTunnel ComplianceStore.initialState cTask "user-1"
          (.ok c2Event) (.ok ()) "fresh-1" 0).1.appMode = .ACTIVE ∧
      (ComplianceStore.startTunnel ComplianceStore.initialState cTask "user-1"
          (.ok c2Event) (.ok ()) "fresh-1" 0).2.isSome) :=
  ⟨(startTunnel_atomic ComplianceStore.initialState cTask "user-1"
      (.error ()) (.ok ()) "fresh-1" 0).1 rfl,
   (startTunnel_atomic ComplianceStore.initialState cTask "user-1"
      (.ok c2Event) (.error ()) "fresh-1" 0).2.1 rfl,
   (startTunnel_atomic ComplianceStore.initialState cTask "user-1"
      (.ok c2Event) (.ok ()) "fresh-1" 0).2.2 (by decide)⟩

/-- Claim C4: when a session is already ACTIVE, a second `startTunnel` fails
(returns the `null` entry — the outcome the spec names `AlreadyActive`) and
leaves every field of the state unmodified, enforcing at most one ACTIVE
session. -/
theorem startTunnel_already_active (s : ComplianceState) (task : RemoteTask)
    (userId : String) (capture : Except Unit TimeEvent)
    (queueResult : Except Unit Unit) (freshId : String) (now : Int)
    (hActive : s.appMode = .ACTIVE) :
    ComplianceStore.startTunnel s task userId capture queueResult freshId now
      = (s, none) := by
  unfold ComplianceStore.startTunnel
  simp [hActive]

/-- Witness for claim C4: a concrete ACTIVE state refuses a second start and
is returned unchanged. -/
theorem startTunnel_already_active_witness :
    c1State.appMode = .ACTIVE ∧
    ComplianceStore.startTunnel c1State cTask "user-2" (.ok c2Event) (.ok ())
        "fresh-2" 7 = (c1State, none) :=
  ⟨rfl, startTunnel_already_active c1State cTask "user-2" (.ok c2Event) (.ok ())
      "fresh-2" 7 rfl⟩

/-- Claim C5: `forceEndSession` always converges to PASSIVE: from any state,
for every outcome of the FORCE_CLOCK_OUT capture and of the queue update
(both failures are swallowed), the resulting state is the initial (reset)
state, whose mode is PASSIVE. -/
theorem forceEndSession_always_passive (s : ComplianceState)
    (capture : Except Unit TimeEvent) (updateResult : Except Unit Unit)
    (now : Int) :
    (ComplianceStore.forceEndSession s capture updateResult now).1
      = ComplianceStore.initialState ∧
    (ComplianceStore.forceEndSession s capture updateResult now).1.appMode
      = .PASSIVE := by
  have h1 : (ComplianceStore.forceEndSession s capture updateResult now).1
      = ComplianceStore.initialState := by
    unfold ComplianceStore.forceEndSession ComplianceStore.reset
    cases s.currentTimeEntry <;> cases capture <;> cases updateResult <;> rfl
  exact ⟨h1, by rw [h1]; rfl⟩

-- ============================================================================
-- Theorems: time truth claims
-- ============================================================================

/-- Right-cancellation of string append, via the underlying character lists. -/
theorem string_append_right_cancel (a b c : String) (h : a ++ c = b ++ c) :
    a = b := by
  apply String.ext
  have hd := congrArg String.data h
  simp only [String.data_append] at hd
  exact List.append_cancel_right hd

/-- Left-cancellation of string append, via the underlying character lists. -/
theorem string_append_left_cancel (a b c : String) (h : a ++ b = a ++ c) :
    b = c := by
  apply String.ext
  have hd := congrArg String.data h
  simp only [String.data_append] at hd
  exact List.append_cancel_left hd

/-- Two payloads that agree on everything after `userTime` but whose rendered
`userTime` values differ serialize to different JSON strings. -/
theorem jsonPayload_ne (p q : CapturePayload)
    (hrest : jsonPayloadRest p = jsonPayloadRest q)
    (hne : toString p.userTime ≠ toString q.userTime) :
    jsonPayload p ≠ jsonPayload q := by
  intro h
  apply hne
  unfold jsonPayload at h
  rw [hrest] at h
  have h2 := string_append_right_cancel _ _ _ h
  exact string_append_left_cancel _ _ _ h2

/-- Claim C6: `validateIntegrity` round-trips with `captureCurrentTime` and
detects tampering (native implementation): provided the digest function is
injective (the collision-freeness assumed of SHA-256), every capture produced
by `captureCurrentTime` validates as `true`, and the same capture with the
stored bytes of `payload.userTime` mutated (so that the rendered value
changes) validates as `false`. -/
theorem validateIntegrity_roundtrip_and_tamper
    (digest : String → String) (hdigest : Function.Injective digest)
    (eventType : TimeEventType) (userTime : Int) (uptime : Except Unit ℚ)
    (perfNow : Option ℚ) (deviceId : String) (c : SignedTimeCapture)
    (hc : captureCurrentTime digest eventType userTime uptime perfNow deviceId = .ok c)
    (u : Int) (hu : toString u ≠ toString c.payload.userTime) :
    validateIntegrity digest c = true ∧
    validateIntegrity digest (tamperUserTime c u) = false := by
  unfold captureCurrentTime at hc
  cases hm : getMonotonicTime uptime perfNow with
  | error e =>
    rw [hm] at hc
    exact absurd hc (by simp)
  | ok mono =>
    rw [hm] at hc
    simp only [Except.ok.injEq] at hc
    subst hc
    constructor
    · simp [validateIntegrity]
    · simp only [validateIntegrity, tamperUserTime]
      refine beq_eq_false_iff_ne.mpr ?_
      refine hdigest.ne ?_
      intro heq
      have hjson := string_append_right_cancel _ _ _ heq
      exact jsonPayload_ne
        { userTime := u, monotonicTime := mono, eventType := eventType,
          deviceId := deviceId, timestamp := userTime }
        { userTime := userTime, monotonicTime := mono, eventType := eventType,
          deviceId := deviceId, timestamp := userTime } rfl hu hjson

/-- Witness for claim C6 with the identity digest: the concrete CLOCK_IN
capture validates, and mutating its `payload.userTime` from 100 to 200 makes
validation fail. -/
theorem validateIntegrity_roundtrip_and_tamper_witness :
    Function.Injective (id : String → String) ∧
    captureCurrentTime id .CLOCK_IN 100 (.ok 5) none "dev-1" = .ok c6Capture ∧
    toString (200 : Int) ≠ toString c6Capture.payload.userTime ∧
    validateIntegrity id c6Capture = true ∧
    validateIntegrity id (tamperUserTime c6Capture 200) = false := by
  have hinj : Function.Injective (id : String → String) := fun a b h => h
  have hc : captureCurrentTime id .CLOCK_IN 100 (.ok 5) none "dev-1"
      = .ok c6Capture := rfl
  have hu : toString (200 : Int) ≠ toString c6Capture.payload.userTime := by decide
  have h := validateIntegrity_roundtrip_and_tamper id hinj .CLOCK_IN 100 (.ok 5)
    none "dev-1" c6Capture hc 200 hu
  exact ⟨hinj, hc, hu, h.1, h.2⟩

/-- Claim C7 (refuted by the code): when the monotonic provider fails and
`performance.now()` is available, the capturer silently substitutes it: the
capture produced in the degraded environment (uptime provider errored,
`performance.now() = 5000`) is identical — same payload, same signature
scheme, no reserved tag or trust flag — to the capture produced in a healthy
environment with a 5-second uptime, for every digest function, so downstream
consumers cannot reject or flag it.  Only when `performance.now` is also
absent does `getMonotonicTime` report an explicit failure. -/
theorem captureCurrentTime_degraded_indistinguishable (digest : String → String) :
    captureCurrentTime digest .CLOCK_IN 1700000000000 (.error ()) (some 5000) "dev-1"
      = captureCurrentTime digest .CLOCK_IN 1700000000000 (.ok 5) none "dev-1" ∧
    getMonotonicTime (.error ()) (some 5000) = .ok 5000 ∧
    getMonotonicTime (.error ()) none = .error () := by
  refine ⟨?_, rfl, rfl⟩
  have h : ((5 : ℚ) * 1000) = 5000 := by norm_num
  simp only [captureCurrentTime, getMonotonicTime, h]

/-- Evaluation of the native `validateTimeEntry` on an entry carrying both an
end time and a monotonic end: the entry is flagged invalid exactly when one
of the three source checks fires, stated with the source's own expressions. -/
theorem validateTimeEntry_flags (e : TimeEntry) (endTime : Int) (monotonicEnd : ℚ)
    (hEnd : e.endTime = some endTime) (hMono : e.monotonicEnd = some monotonicEnd) :
    (validateTimeEntry e).1 = false ↔
      (endTime < e.startTime ∨
       ((endTime : ℚ) - (e.startTime : ℚ)) / (1000 * 60 * 60) > 24 ∨
       (if ((endTime : ℚ) - (e.startTime : ℚ)) = 0
        then monotonicEnd - e.monotonicStart ≠ 0
        else |((endTime : ℚ) - (e.startTime : ℚ)) - (monotonicEnd - e.monotonicStart)| /
               ((endTime : ℚ) - (e.startTime : ℚ)) > 1 / 20)) := by
  unfold validateTimeEntry
  rw [hEnd, hMono]
  by_cases h1 : endTime < e.startTime <;>
    by_cases h2 : ((endTime : ℚ) - (e.startTime : ℚ)) / (1000 * 60 * 60) > 24 <;>
      by_cases h3 : ((endTime : ℚ) - (e.startTime : ℚ)) = 0 <;>
        by_cases h4 : monotonicEnd - e.monotonicStart = 0 <;>
          by_cases h5 : |((endTime : ℚ) - (e.startTime : ℚ)) -
              (monotonicEnd - e.monotonicStart)| /
              ((endTime : ℚ) - (e.startTime : ℚ)) > 1 / 20 <;>
            (try simp_all) <;>
            (try norm_num at *) <;>
            (try (split_ifs <;> simp_all))

/-- Claim C9: for every time entry with an end time and a monotonic end
value, the native `validateTimeEntry` flags it invalid exactly when the end
precedes the start, or the wall-clock duration exceeds 24 hours, or the
deviation between wall-clock and monotonic duration exceeds 5% of the
wall-clock duration (`20·|wallDur − monoDur| > wallDur`, the divisionless
reading of `|wallDur − monoDur| / wallDur > 0.05`). -/
theorem validateTimeEntry_invalid_iff (e : TimeEntry) (endTime : Int) (monotonicEnd : ℚ)
    (hEnd : e.endTime = some endTime) (hMono : e.monotonicEnd = some monotonicEnd) :
    (validateTimeEntry e).1 = false ↔
      (endTime < e.startTime ∨
       endTime - e.startTime > 24 * 60 * 60 * 1000 ∨
       20 * |((endTime : ℚ) - (e.startTime : ℚ)) - (monotonicEnd - e.monotonicStart)| >
         (endTime : ℚ) - (e.startTime : ℚ)) := by
  rw [validateTimeEntry_flags e endTime monotonicEnd hEnd hMono]
  set w : ℚ := (endTime : ℚ) - (e.startTime : ℚ) with hw
  set md : ℚ := monotonicEnd - e.monotonicStart with hmd
  have hD : (w / (1000 * 60 * 60) > 24) ↔
      (endTime - e.startTime > (24 * 60 * 60 * 1000 : Int)) := by
    rw [hw, gt_iff_lt, lt_div_iff₀ (by norm_num : (0:ℚ) < 1000 * 60 * 60), gt_iff_lt,
      ← @Int.cast_lt ℚ]
    push_cast
    constructor <;> intro h <;> linarith
  by_cases hA : endTime < e.startTime
  · simp [hA]
  · have hw0 : 0 ≤ w := by
      rw [hw]
      have : (e.startTime : ℚ) ≤ (endTime : ℚ) := by exact_mod_cast not_lt.mp hA
      linarith
    refine or_congr Iff.rfl (or_congr hD ?_)
    by_cases hz : w = 0
    · rw [if_pos hz, hz]
      rw [show (0:ℚ) - md = -md by ring, abs_neg]
      constructor
      · intro h
        have : 0 < |md| := abs_pos.mpr h
        linarith
      · intro h
        refine abs_pos.mp ?_
        linarith
    · have hpos : 0 < w := lt_of_le_of_ne hw0 (Ne.symm hz)
      rw [if_neg hz, gt_iff_lt, gt_iff_lt,
        div_lt_div_iff₀ (by norm_num : (0:ℚ) < 20) hpos]
      constructor <;> intro h <;> linarith

/-- Witness for claim C9: the spec's 48-hour entry (2024-01-01T00:00:00Z to
2024-01-03T00:00:00Z) is flagged invalid, its wall-clock duration exceeding
the 24-hour limit. -/
theorem validateTimeEntry_invalid_iff_witness :
    c9Entry.endTime = some 1704240000000 ∧
    c9Entry.monotonicEnd = some 172800000 ∧
    (validateTimeEntry c9Entry).1 = false :=
  ⟨rfl, rfl,
    (validateTimeEntry_invalid_iff c9Entry 1704240000000 172800000 rfl rfl).mpr
      (Or.inr (Or.inl (by norm_num [c9Entry, cEntry])))⟩
